import Mathlib

/-!
Verification of the Card-Nudge-Server notification cadence and delivery
engine.  The definitions below are a shallow embedding of the current
revision of the Deno edge function `send-notification`:

* `getDaysDifference` — `utils/dateUtils.ts`;
* `shouldSendDue`, `shouldSendOverdue`, `shouldSendBilling`, `evalPayment`,
  `processUserNotifications` — `notification/NotificationSender.ts`
  (`NotificationSender.processUserNotifications`);
* `sendNotification`, `recordStep`, `recordResponses` —
  `services/FirebaseService.ts` (`FirebaseService.sendNotification`);
* `en`, `hi`, `mkBuilder`, `NotificationMessageBuilder` —
  `notification/NotificationBuilder.ts` and `notification/lang/{en,hi}.ts`.

Monetary amounts are modelled as integers; currency formatting is performed
by the external `Intl` API (`utils/currencyUtils.ts`) and is therefore
abstracted as an arbitrary function argument of type `FormatCurrency`.
-/

namespace CardNudge

/-- A JavaScript `Date` value as the engine observes it: the civil calendar
date in the reference time zone (the components returned by `getFullYear`,
`getMonth` — 0-based — and `getDate`) together with the time of day.  The
engine's date arithmetic reads only the civil-date components. -/
structure JSDate where
  year : Int
  /-- 0-based month, as returned by JavaScript `Date#getMonth`. -/
  month : Int
  day : Int
  /-- Time of day in milliseconds; never consulted by the date arithmetic. -/
  msOfDay : Int
deriving DecidableEq, Repr

def MS_PER_DAY : Int := 1000 * 60 * 60 * 24

/-- Day number of a civil date in the proleptic Gregorian calendar
(epoch 1970-01-01), with `m` 1-based.  This is the value
`Date.UTC(y, m-1, d) / 86400000` computes for in-range components. -/
def daysFromCivil (y m d : Int) : Int :=
  let y1 := if m ≤ 2 then y - 1 else y
  let era := Int.fdiv y1 400
  let yoe := y1 - era * 400
  let mp := Int.emod (m + 9) 12
  let doy := Int.fdiv (153 * mp + 2) 5 + d - 1
  let doe := yoe * 365 + Int.fdiv yoe 4 - Int.fdiv yoe 100 + doy
  era * 146097 + doe - 719468

/-- `Date.UTC(d.getFullYear(), d.getMonth(), d.getDate())`: the timestamp in
milliseconds of midnight (UTC) of the civil date of `t`. -/
def dateUTC (t : JSDate) : Int :=
  daysFromCivil t.year (t.month + 1) t.day * MS_PER_DAY

/-- Epoch day number of the civil date of a timestamp. -/
def civilDayNumber (t : JSDate) : Int :=
  daysFromCivil t.year (t.month + 1) t.day

/-- `getDaysDifference` from `utils/dateUtils.ts`: truncate both timestamps
to their civil dates, difference in milliseconds, floor-divide by a day
(JavaScript `Math.floor`). Positive when `d2` is after `d1`. -/
def getDaysDifference (d1 d2 : JSDate) : Int :=
  Int.fdiv (dateUTC d2 - dateUTC d1) MS_PER_DAY

/-- `NotificationLog["notification_type"]` from `shared/models.ts`.
The `"partial"` literal is named `partialPayment` here. -/
inductive NotificationType where
  | billing
  | due
  | overdue
  | partialPayment
deriving DecidableEq, Repr

/-- `Card` row (`shared/models.ts`), with `billing_date` already parsed
(`new Date(card.billing_date)`).  `is_auto_debit_enabled` holds the value of
`Boolean(card.is_auto_debit_enabled)`. -/
structure Card where
  id : String
  name : String
  last_4_digits : String
  billing_date : JSDate
  is_auto_debit_enabled : Bool
deriving DecidableEq, Repr

/-- Unpaid `Payment` row joined with its card (`shared/models.ts`), with
`due_date` already parsed (`new Date(payment.due_date)`). -/
structure Payment where
  id : String
  due_date : JSDate
  due_amount : Int
  paid_amount : Int
  statement_amount : Int
  cards : Card
deriving DecidableEq, Repr

/-- `Setting` row (`shared/models.ts`). -/
structure Setting where
  language : String
  currency : String
  utilization_alert_threshold : Int
deriving DecidableEq, Repr

/-- `NotificationLog` record (`shared/models.ts`). -/
structure NotificationLog where
  user_id : String
  card_id : String
  notification_type : NotificationType
  title : String
  body : String
  payload : String
  sent_at : JSDate
deriving DecidableEq, Repr

/-- Per-token outcome reported by `sendEachForMulticast`: the `success` flag
and, on failure, the error code of `res.error` when present. -/
structure SendResponse where
  success : Bool
  error : Option String
deriving DecidableEq, Repr

/-- The most recent notification-log timestamp per `(card, type)` pair for
the processed user, as returned by
`SupabaseService.getLastNotificationLog(userId, cardId, type)`. -/
def LastLogFn : Type := String → NotificationType → Option JSDate

/-- Responses the push gateway returns for the multicast dispatched for a
given `(card, type)` pair in this run. -/
def GatewayFn : Type := String → NotificationType → List SendResponse

/-- `formatCurrency(amount, currencyCode, lang)` from
`utils/currencyUtils.ts`; delegates to the external `Intl` API, so it is
kept abstract. -/
def FormatCurrency : Type := Int → String → String → String

/-- A rendered notification message. -/
structure Message where
  title : String
  body : String
deriving DecidableEq, Repr

/-! ### Language templates (`notification/lang/en.ts`, `notification/lang/hi.ts`) -/

/-- `NotificationStrings` interface (`shared/models.ts`): one template per
notification kind.  The `partial` member is named `partialPayment`.  The
`due` and `overdue` templates take the card's auto-debit flag
(`isAutoDebit`), which the builder forwards and the current `hi.ts`
consumes; `partial` does not declare it. -/
structure NotificationStrings where
  billing : String → String → Int → Message
  due : String → String → Int → Int → String → Bool → Message
  overdue : String → String → Int → String → Bool → Message
  partialPayment : String → String → Int → Int → String → Message

/-- English template set (`notification/lang/en.ts`).  Its `due` and
`overdue` declare no `isAutoDebit` parameter in the source — JavaScript
drops the extra argument the builder passes — so the flag is ignored
here. -/
def en (fmt : FormatCurrency) : NotificationStrings where
  billing := fun cardName last4Digits billingInDays =>
    if billingInDays < 0 then
      let daysAgo := |billingInDays|
      { title := "📝 Statement Generated: " ++ cardName
        body := "Your statement for " ++ cardName ++ " (**** " ++ last4Digits
          ++ ") was generated " ++ toString daysAgo ++ " day"
          ++ (if 1 < daysAgo then "s" else "")
          ++ " ago. Please log your new payment details." }
    else if billingInDays = 0 then
      { title := "📅 Billing Day Today: " ++ cardName
        body := "Your new statement for " ++ cardName ++ " (**** "
          ++ last4Digits ++ ") will be generated soon." }
    else if billingInDays = 1 then
      { title := "📅 Billing Day Tomorrow: " ++ cardName
        body := "Your billing date for " ++ cardName ++ " (**** "
          ++ last4Digits ++ ") is tomorrow. Finalize your expenses." }
    else
      { title := "📅 Billing in " ++ toString billingInDays ++ " Days: " ++ cardName
        body := "The billing date for " ++ cardName ++ " (**** " ++ last4Digits
          ++ ") is approaching in " ++ toString billingInDays ++ " days." }
  due := fun cardName last4Digits dueInDays remaining currencyCode _isAutoDebit =>
    let title :=
      if dueInDays = 0 then "⏰ Payment Due Today: " ++ cardName
      else if dueInDays = 1 then "⏰ Payment Due Tomorrow: " ++ cardName
      else "⏰ " ++ toString dueInDays ++ " Days Left to Pay: " ++ cardName
    let amount := fmt remaining currencyCode "en"
    { title := title
      body := "Please pay " ++ amount ++ " for your card ending in "
        ++ last4Digits ++ " to avoid late fees." }
  overdue := fun cardName last4Digits remaining currencyCode _isAutoDebit =>
    let amount := fmt remaining currencyCode "en"
    { title := "⚠️ Overdue Payment: " ++ cardName
      body := "Your payment of " ++ amount ++ " for " ++ cardName ++ " (**** "
        ++ last4Digits ++ ") is overdue. Please pay now to avoid further charges." }
  partialPayment := fun cardName last4Digits paid remaining currencyCode =>
    let paidAmount := fmt paid currencyCode "en"
    let remainingAmount := fmt remaining currencyCode "en"
    { title := "💸 Partial Payment Received: " ++ cardName
      body := "Thank you for paying " ++ paidAmount ++ ". A balance of "
        ++ remainingAmount ++ " is still due for " ++ cardName ++ " (**** "
        ++ last4Digits ++ ")." }

/-- Hindi template set
(`src/supabase/functions/send-notification/notification/lang/hi.ts`): its
`due` and `overdue` append an auto-debit advisory clause to the body when
`isAutoDebit` is set. -/
def hi (fmt : FormatCurrency) : NotificationStrings where
  billing := fun cardName last4Digits billingInDays =>
    if billingInDays < 0 then
      let daysAgo := |billingInDays|
      { title := "📝 स्टेटमेंट जेनरेट हो गया: " ++ cardName
        body := "आपके " ++ cardName ++ " (**** " ++ last4Digits
          ++ ") का स्टेटमेंट " ++ toString daysAgo
          ++ " दिन पहले जेनरेट हुआ था। कृपया अपना नया भुगतान लॉग करें।" }
    else if billingInDays = 0 then
      { title := "📅 आज बिलिंग दिवस: " ++ cardName
        body := "आपके " ++ cardName ++ " (**** " ++ last4Digits
          ++ ") का नया स्टेटमेंट जल्द ही जेनरेट होगा।" }
    else if billingInDays = 1 then
      { title := "📅 कल बिलिंग दिवस: " ++ cardName
        body := cardName ++ " (**** " ++ last4Digits
          ++ ") की बिलिंग तिथि कल है। अपने खर्चों को अंतिम रूप दें।" }
    else
      { title := "📅 " ++ toString billingInDays ++ " दिनों में बिलिंग: " ++ cardName
        body := cardName ++ " (**** " ++ last4Digits ++ ") की बिलिंग तिथि "
          ++ toString billingInDays ++ " दिनों में आ रही है।" }
  due := fun cardName last4Digits dueInDays remaining currencyCode isAutoDebit =>
    let title :=
      if dueInDays = 0 then "⏰ आज भुगतान की अंतिम तिथि: " ++ cardName
      else if dueInDays = 1 then "⏰ कल भुगतान की अंतिम तिथि: " ++ cardName
      else "⏰ भुगतान के लिए " ++ toString dueInDays ++ " दिन शेष: " ++ cardName
    let amount := fmt remaining currencyCode "hi"
    let body := "कृपया लेट फीस से बचने के लिए अपने कार्ड (**** " ++ last4Digits
      ++ ") का " ++ amount ++ " का भुगतान करें।"
    let body := if isAutoDebit then
        body ++ " इस कार्ड के लिए ऑटो-डेबिट सक्षम है — कृपया लिंक किए गए खाते में पर्याप्त शेष राशि रखें।"
      else body
    { title := title, body := body }
  overdue := fun cardName last4Digits remaining currencyCode isAutoDebit =>
    let amount := fmt remaining currencyCode "hi"
    let body := "आपके " ++ cardName ++ " (**** " ++ last4Digits ++ ") का "
      ++ amount ++ " का भुगतान बकाया है। कृपया अतिरिक्त शुल्क से बचने के लिए अभी भुगतान करें।"
    let body := if isAutoDebit then
        body ++ " इस कार्ड के लिए ऑटो-डेबिट सक्षम है — कृपया लिंक किए गए खाते में पर्याप्त शेष राशि रखें।"
      else body
    { title := "⚠️ भुगतान बकाया: " ++ cardName, body := body }
  partialPayment := fun cardName last4Digits paid remaining currencyCode =>
    let paidAmount := fmt paid currencyCode "hi"
    let remainingAmount := fmt remaining currencyCode "hi"
    { title := "💸 आंशिक भुगतान प्राप्त: " ++ cardName
      body := paidAmount ++ " के भुगतान के लिए धन्यवाद। आपके " ++ cardName
        ++ " (**** " ++ last4Digits ++ ") पर अभी भी " ++ remainingAmount
        ++ " बकाया है।" }

/-- `NotificationMessageBuilder` (`notification/NotificationBuilder.ts`):
holds the template set selected by the user's language. -/
structure NotificationMessageBuilder where
  strings : NotificationStrings

/-- The `NotificationMessageBuilder` constructor: `lang.toLowerCase()` is
matched against `"hindi"`; `"english"` and every other value fall through to
the default (English) template set. -/
def mkBuilder (fmt : FormatCurrency) (lang : String) : NotificationMessageBuilder :=
  ⟨if lang.toLower = "hindi" then hi fmt else en fmt⟩

def NotificationMessageBuilder.billingReminder (b : NotificationMessageBuilder)
    (cardName last4Digits : String) (diffDaysBilling : Int) : Message :=
  b.strings.billing cardName last4Digits diffDaysBilling

/-- `dueReminder`: forwards the `isAutoDebit` flag to the selected
template. -/
def NotificationMessageBuilder.dueReminder (b : NotificationMessageBuilder)
    (cardName last4Digits : String) (dueInDays remaining : Int)
    (currencyCode : String) (isAutoDebit : Bool) : Message :=
  b.strings.due cardName last4Digits dueInDays remaining currencyCode isAutoDebit

/-- `overdue`: forwards the `isAutoDebit` flag to the selected template. -/
def NotificationMessageBuilder.overdue (b : NotificationMessageBuilder)
    (cardName last4Digits : String) (remaining : Int)
    (currencyCode : String) (isAutoDebit : Bool) : Message :=
  b.strings.overdue cardName last4Digits remaining currencyCode isAutoDebit

/-- `partial`: the builder passes `isAutoDebit`, but the template's
`partial` signature does not declare it, so JavaScript drops the extra
argument. -/
def NotificationMessageBuilder.partialPayment (b : NotificationMessageBuilder)
    (cardName last4Digits : String) (paid remaining : Int)
    (currencyCode : String) (_isAutoDebit : Bool) : Message :=
  b.strings.partialPayment cardName last4Digits paid remaining currencyCode

/-! ### Delivery dispatcher (`services/FirebaseService.ts`) -/

/-- The error codes `FirebaseService.sendNotification` treats as permanent
(token to be deleted). -/
def staleTokenErrorCodes : List String :=
  ["messaging/invalid-registration-token",
   "messaging/registration-token-not-registered",
   "messaging/not-found"]

def isStaleTokenError (code : String) : Bool :=
  staleTokenErrorCodes.contains code

/-- A response is a permanent failure when it is unsuccessful and carries one
of the stale-token error codes. -/
def isPermanentFailure (r : SendResponse) : Bool :=
  !r.success &&
    (match r.error with
     | some code => isStaleTokenError code
     | none => false)

/-- The history record pushed for each successful response.  Every push in
one dispatch carries the same fields; the `new Date().toISOString()` taken at
push time is modelled by the `sentAt` argument. -/
def mkLogEntry (userId cardId : String) (ntype : NotificationType)
    (title body payload : String) (sentAt : JSDate) : NotificationLog :=
  { user_id := userId, card_id := cardId, notification_type := ntype
    title := title, body := body, payload := payload, sent_at := sentAt }

/-- Body of `result.responses.forEach((res, i) => ...)`: push a history
record on success; on an errored response with a stale-token code, push
`tokens[i]` onto the failed-token list; otherwise leave both untouched.
`tokens[i]` is modelled as `tokens.getD i ""`; it is in range whenever the
gateway honours its contract `responses.length = tokens.length`. -/
def recordStep (entry : NotificationLog) (tokens : List String)
    (st : List NotificationLog × List String) (i : Nat) (res : SendResponse) :
    List NotificationLog × List String :=
  if res.success then (st.1 ++ [entry], st.2)
  else
    match res.error with
    | some code =>
        if isStaleTokenError code then (st.1, st.2 ++ [tokens.getD i ""]) else st
    | none => st

/-- The indexed `forEach` over the gateway's response list. -/
def recordResponses (entry : NotificationLog) (tokens : List String) :
    Nat → List SendResponse → List NotificationLog × List String →
    List NotificationLog × List String
  | _, [], st => st
  | i, r :: rs, st => recordResponses entry tokens (i + 1) rs (recordStep entry tokens st i r)

/-- `FirebaseService.sendNotification`: returns without effect when the
Firebase app is uninitialized (`app = false`) or the token list is empty;
otherwise dispatches one multicast and records per-token outcomes into the
two run-scoped accumulators. -/
def sendNotification (app : Bool) (userId cardId : String)
    (ntype : NotificationType) (title body payload : String)
    (tokens : List String) (responses : List SendResponse) (sentAt : JSDate)
    (logs : List NotificationLog) (failedTokens : List String) :
    List NotificationLog × List String :=
  if !app || tokens.isEmpty then (logs, failedTokens)
  else
    recordResponses (mkLogEntry userId cardId ntype title body payload sentAt)
      tokens 0 responses (logs, failedTokens)

/-- The tokens of the permanently failed responses, in dispatch order,
pairing the token list with the (equally long) response list. -/
def permanentFailureTokens (tokens : List String)
    (responses : List SendResponse) : List String :=
  (tokens.zip responses).filterMap fun tr =>
    if isPermanentFailure tr.2 then some tr.1 else none

/-! ### Cadence decisions and the per-user run
(`notification/NotificationSender.ts`) -/

/-- Far-zone due decision for `diffDaysDue > 0`
(`NotificationSender.processUserNotifications`, due branch): within 5 days
always send; further out, send on first touch or when the last `"due"` log
is at least 3 civil days old. -/
def shouldSendDue (now : JSDate) (lastDueLog : Option JSDate)
    (diffDaysDue : Int) : Bool :=
  if diffDaysDue ≤ 5 then true
  else
    match lastDueLog with
    | none => true
    | some sentAt => decide (3 ≤ getDaysDifference sentAt now)

/-- Overdue decision (`daysOverdue = |diffDaysDue|`, `diffDaysDue < 0`):
within 7 days always send; further out, first touch or 3-day repeat. -/
def shouldSendOverdue (now : JSDate) (lastOverdueLog : Option JSDate)
    (daysOverdue : Int) : Bool :=
  if daysOverdue ≤ 7 then true
  else
    match lastOverdueLog with
    | none => true
    | some sentAt => decide (3 ≤ getDaysDifference sentAt now)

/-- Billing decision: on the billing day always send; within 3 days either
side always send; otherwise first touch or 3-day repeat. -/
def shouldSendBilling (now : JSDate) (lastBillingLog : Option JSDate)
    (diffDaysBilling : Int) : Bool :=
  if diffDaysBilling = 0 then true
  else if |diffDaysBilling| ≤ 3 then true
  else
    match lastBillingLog with
    | none => true
    | some sentAt => decide (3 ≤ getDaysDifference sentAt now)

/-- Which notification (if any) the per-payment loop body dispatches: the
`diffDaysDue === 0` / `> 0` / `else` chain of
`NotificationSender.processUserNotifications`.  An offset of zero is the
due-today branch, which always sends. -/
def evalPayment (now : JSDate) (lastLog : LastLogFn) (p : Payment) :
    Option NotificationType :=
  let diffDaysDue := getDaysDifference now p.due_date
  if diffDaysDue = 0 then some NotificationType.due
  else if 0 < diffDaysDue then
    if shouldSendDue now (lastLog p.cards.id NotificationType.due) diffDaysDue then
      some NotificationType.due
    else none
  else
    let daysOverdue := |diffDaysDue|
    if shouldSendOverdue now (lastLog p.cards.id NotificationType.overdue) daysOverdue then
      some NotificationType.overdue
    else none

/-- `payments.some((p) => p.cards?.id === card.id)`: the card has an unpaid
payment in this run's payment set. -/
def hasUnpaidPayment (payments : List Payment) (card : Card) : Bool :=
  payments.any fun p => p.cards.id = card.id

/-- One multicast dispatch of the run (instrumentation of the trace the run
produces): the card it targets and the notification kind. -/
structure SendEvent where
  cardId : String
  ntype : NotificationType
deriving DecidableEq, Repr

/-- Run-scoped state: the two accumulators threaded through the whole run
plus the trace of dispatches made so far. -/
structure RunState where
  logs : List NotificationLog
  failedTokens : List String
  sends : List SendEvent
deriving DecidableEq, Repr

/-- Body of the payment loop: evaluate the due/overdue decision and, when it
fires, compose the message and dispatch it. -/
def processPayment (app : Bool) (fmt : FormatCurrency) (userId : String)
    (now : JSDate) (setting : Setting) (tokens : List String)
    (lastLog : LastLogFn) (gateway : GatewayFn)
    (st : RunState) (p : Payment) : RunState :=
  let card := p.cards
  let remaining := p.statement_amount
  let payload := "/card_details/" ++ card.id
  let diffDaysDue := getDaysDifference now p.due_date
  let builder := mkBuilder fmt setting.language
  match evalPayment now lastLog p with
  | some NotificationType.due =>
      let msg := builder.dueReminder card.name card.last_4_digits diffDaysDue
        remaining setting.currency card.is_auto_debit_enabled
      let lf := sendNotification app userId card.id NotificationType.due
        msg.title msg.body payload tokens (gateway card.id NotificationType.due)
        now st.logs st.failedTokens
      ⟨lf.1, lf.2, st.sends ++ [⟨card.id, NotificationType.due⟩]⟩
  | some NotificationType.overdue =>
      let msg := builder.overdue card.name card.last_4_digits remaining
        setting.currency card.is_auto_debit_enabled
      let lf := sendNotification app userId card.id NotificationType.overdue
        msg.title msg.body payload tokens (gateway card.id NotificationType.overdue)
        now st.logs st.failedTokens
      ⟨lf.1, lf.2, st.sends ++ [⟨card.id, NotificationType.overdue⟩]⟩
  | _ => st

/-- Body of the billing loop: skip cards with an unpaid payment, otherwise
evaluate the billing decision and dispatch when it fires. -/
def processCard (app : Bool) (fmt : FormatCurrency) (userId : String)
    (now : JSDate) (setting : Setting) (tokens : List String)
    (payments : List Payment) (lastLog : LastLogFn) (gateway : GatewayFn)
    (st : RunState) (card : Card) : RunState :=
  if hasUnpaidPayment payments card then st
  else
    let diffDaysBilling := getDaysDifference now card.billing_date
    if shouldSendBilling now (lastLog card.id NotificationType.billing) diffDaysBilling then
      let msg := (mkBuilder fmt setting.language).billingReminder
        card.name card.last_4_digits diffDaysBilling
      let lf := sendNotification app userId card.id NotificationType.billing
        msg.title msg.body ("/cards/" ++ card.id) tokens
        (gateway card.id NotificationType.billing) now st.logs st.failedTokens
      ⟨lf.1, lf.2, st.sends ++ [⟨card.id, NotificationType.billing⟩]⟩
    else st

/-- `NotificationSender.processUserNotifications`: skip the user when no
setting row was found or no device token is registered; otherwise run the
payment loop and then the billing loop, threading the run-scoped
accumulators.  The data loaded concurrently for the user (setting, tokens,
payments, cards) and the history/gateway environments are parameters. -/
def processUserNotifications (app : Bool) (fmt : FormatCurrency)
    (userId : String) (now : JSDate) (userSetting : Option Setting)
    (tokens : List String) (payments : List Payment) (cards : List Card)
    (lastLog : LastLogFn) (gateway : GatewayFn)
    (logs : List NotificationLog) (failedTokens : List String) : RunState :=
  match userSetting with
  | none => ⟨logs, failedTokens, []⟩
  | some setting =>
      if tokens.isEmpty then ⟨logs, failedTokens, []⟩
      else
        let st1 := payments.foldl
          (processPayment app fmt userId now setting tokens lastLog gateway)
          ⟨logs, failedTokens, []⟩
        cards.foldl
          (processCard app fmt userId now setting tokens payments lastLog gateway)
          st1

/-- The trace entry payment `p` contributes to the run. -/
def paymentEventOf (now : JSDate) (lastLog : LastLogFn) (p : Payment) :
    Option SendEvent :=
  (evalPayment now lastLog p).map fun t => ⟨p.cards.id, t⟩

/-- The trace entry card `card` contributes to the billing loop. -/
def billingEventOf (now : JSDate) (payments : List Payment)
    (lastLog : LastLogFn) (card : Card) : Option SendEvent :=
  if hasUnpaidPayment payments card then none
  else if shouldSendBilling now (lastLog card.id NotificationType.billing)
      (getDaysDifference now card.billing_date) then
    some ⟨card.id, NotificationType.billing⟩
  else none

/-! ### Concrete sample data used to instantiate the theorems -/

/-- 2026-10-11, 07:30 in the reference time zone. -/
def sampleNow : JSDate := ⟨2026, 9, 11, 27000000⟩

def sampleCard : Card := ⟨"card-1", "Platinum", "1234", ⟨2026, 9, 1, 0⟩, false⟩

/-- An unpaid payment on `sampleCard` with the given due date. -/
def samplePayment (dueDate : JSDate) : Payment :=
  ⟨"pay-1", dueDate, 500, 0, 500, sampleCard⟩

/-- History environment with no prior notification log. -/
def noHistory : LastLogFn := fun _ _ => none

/-- History environment whose every `(card, type)` query returns `d`. -/
def historyAt (d : JSDate) : LastLogFn := fun _ _ => some d

/-- A gateway returning no responses, and a trivial currency formatter. -/
def silentGateway : GatewayFn := fun _ _ => []

def constFmt : FormatCurrency := fun _ _ _ => "₹0.00"

end CardNudge

namespace CardNudge

/-! ### Helper lemmas -/

theorem eq_empty_of_data_nil (s : String) (h : s.data = []) : s = "" := by
  cases s with
  | mk data =>
      simp only at h
      rw [show ("" : String) = String.mk [] from rfl, h]

theorem append_left_ne_empty (s t : String) (h : s ≠ "") : s ++ t ≠ "" := by
  intro he
  apply h
  have hd : (s ++ t).data = s.data ++ t.data := rfl
  rw [he] at hd
  exact eq_empty_of_data_nil s (List.append_eq_nil.mp hd.symm).1

theorem append_right_ne_empty (s t : String) (h : t ≠ "") : s ++ t ≠ "" := by
  intro he
  apply h
  have hd : (s ++ t).data = s.data ++ t.data := rfl
  rw [he] at hd
  exact eq_empty_of_data_nil t (List.append_eq_nil.mp hd.symm).2

theorem getDaysDifference_eq_civil_sub (t1 t2 : JSDate) :
    getDaysDifference t1 t2 = civilDayNumber t2 - civilDayNumber t1 := by
  unfold getDaysDifference dateUTC civilDayNumber MS_PER_DAY
  rw [← Int.sub_mul]
  exact Int.mul_fdiv_cancel _ (by norm_num)

theorem evalPayment_cases (now : JSDate) (lastLog : LastLogFn) (p : Payment) :
    evalPayment now lastLog p = none ∨
    evalPayment now lastLog p = some NotificationType.due ∨
    evalPayment now lastLog p = some NotificationType.overdue := by
  simp only [evalPayment]
  split_ifs <;> simp

theorem recordResponses_spec (entry : NotificationLog) (tokens : List String) :
    ∀ (responses : List SendResponse) (i : Nat)
      (st : List NotificationLog × List String),
      i + responses.length ≤ tokens.length →
      recordResponses entry tokens i responses st =
        (st.1 ++ List.replicate (responses.countP (fun r => r.success)) entry,
         st.2 ++ permanentFailureTokens (tokens.drop i) responses) := by
  intro responses
  induction responses with
  | nil =>
      intro i st h
      simp [recordResponses, permanentFailureTokens]
  | cons r rs ih =>
      intro i st h
      have hi : i < tokens.length := by simp at h; omega
      have hdrop : tokens.drop i = tokens[i] :: tokens.drop (i + 1) :=
        List.drop_eq_getElem_cons hi
      have hgetD : tokens[i]?.getD "" = tokens[i] := by
        rw [List.getElem?_eq_getElem hi]
        rfl
      have hrec : i + 1 + rs.length ≤ tokens.length := by simp at h; omega
      simp only [recordResponses]
      rw [ih (i + 1) _ hrec, hdrop]
      simp only [permanentFailureTokens, List.zip_cons_cons, List.filterMap_cons]
      by_cases hs : r.success
      · simp [recordStep, hs, isPermanentFailure, List.countP_cons,
          List.replicate_succ, List.append_assoc]
      · cases he : r.error with
        | some code =>
            by_cases hp : isStaleTokenError code
            · simp [recordStep, hs, he, hp, isPermanentFailure, hgetD,
                List.countP_cons, List.append_assoc]
            · simp [recordStep, hs, he, hp, isPermanentFailure, List.countP_cons]
        | none =>
            simp [recordStep, hs, he, isPermanentFailure, List.countP_cons]

theorem permanentFailureTokens_length :
    ∀ (tokens : List String) (responses : List SendResponse),
      tokens.length = responses.length →
      (permanentFailureTokens tokens responses).length =
        responses.countP isPermanentFailure := by
  intro tokens
  induction tokens with
  | nil =>
      intro responses h
      cases responses with
      | nil => rfl
      | cons r rs => simp at h
  | cons t ts ih =>
      intro responses h
      cases responses with
      | nil => simp at h
      | cons r rs =>
          have ih2 := ih rs (by simpa using h)
          simp only [permanentFailureTokens, List.zip_cons_cons,
            List.filterMap_cons, List.countP_cons] at *
          by_cases hp : isPermanentFailure r
          · simp [hp, ih2]
          · simp [hp, ih2]

theorem countP_success_add_perm_le (responses : List SendResponse) :
    responses.countP (fun r => r.success) +
      responses.countP isPermanentFailure ≤ responses.length := by
  induction responses with
  | nil => simp
  | cons r rs ih =>
      simp only [List.countP_cons, List.length_cons]
      by_cases hs : r.success
      · have : isPermanentFailure r = false := by
          simp [isPermanentFailure, hs]
        simp [hs, this]
        omega
      · simp only [hs]
        by_cases hp : isPermanentFailure r <;> simp [hp] <;> omega

theorem processPayment_sends (app : Bool) (fmt : FormatCurrency)
    (userId : String) (now : JSDate) (setting : Setting)
    (tokens : List String) (lastLog : LastLogFn) (gateway : GatewayFn)
    (st : RunState) (p : Payment) :
    (processPayment app fmt userId now setting tokens lastLog gateway st p).sends =
      st.sends ++ (paymentEventOf now lastLog p).toList := by
  rcases evalPayment_cases now lastLog p with hev | hev | hev <;>
    simp [processPayment, paymentEventOf, hev]

theorem processCard_sends (app : Bool) (fmt : FormatCurrency)
    (userId : String) (now : JSDate) (setting : Setting)
    (tokens : List String) (payments : List Payment) (lastLog : LastLogFn)
    (gateway : GatewayFn) (st : RunState) (card : Card) :
    (processCard app fmt userId now setting tokens payments lastLog gateway st card).sends =
      st.sends ++ (billingEventOf now payments lastLog card).toList := by
  unfold processCard billingEventOf
  split_ifs <;> simp_all

theorem foldl_processPayment_sends (app : Bool) (fmt : FormatCurrency)
    (userId : String) (now : JSDate) (setting : Setting)
    (tokens : List String) (lastLog : LastLogFn) (gateway : GatewayFn) :
    ∀ (payments : List Payment) (st : RunState),
      (payments.foldl (processPayment app fmt userId now setting tokens lastLog gateway) st).sends =
        st.sends ++ payments.filterMap (paymentEventOf now lastLog) := by
  intro payments
  induction payments with
  | nil => intro st; simp
  | cons p ps ih =>
      intro st
      simp only [List.foldl_cons, List.filterMap_cons]
      rw [ih]
      rw [processPayment_sends]
      cases hev : paymentEventOf now lastLog p <;> simp [hev]

theorem foldl_processCard_sends (app : Bool) (fmt : FormatCurrency)
    (userId : String) (now : JSDate) (setting : Setting)
    (tokens : List String) (payments : List Payment) (lastLog : LastLogFn)
    (gateway : GatewayFn) :
    ∀ (cards : List Card) (st : RunState),
      (cards.foldl (processCard app fmt userId now setting tokens payments lastLog gateway) st).sends =
        st.sends ++ cards.filterMap (billingEventOf now payments lastLog) := by
  intro cards
  induction cards with
  | nil => intro st; simp
  | cons c cs ih =>
      intro st
      simp only [List.foldl_cons, List.filterMap_cons]
      rw [ih]
      rw [processCard_sends]
      cases hev : billingEventOf now payments lastLog c <;> simp [hev]

theorem run_sends_characterization (app : Bool) (fmt : FormatCurrency)
    (userId : String) (now : JSDate) (setting : Setting)
    (tokens : List String) (payments : List Payment) (cards : List Card)
    (lastLog : LastLogFn) (gateway : GatewayFn)
    (logs : List NotificationLog) (failedTokens : List String)
    (htok : tokens ≠ []) :
    (processUserNotifications app fmt userId now (some setting) tokens payments
        cards lastLog gateway logs failedTokens).sends =
      payments.filterMap (paymentEventOf now lastLog) ++
        cards.filterMap (billingEventOf now payments lastLog) := by
  have hne : tokens.isEmpty = false := by
    cases tokens with
    | nil => exact absurd rfl htok
    | cons t ts => rfl
  unfold processUserNotifications
  rw [hne]
  simp only [Bool.false_eq_true, if_false]
  rw [foldl_processCard_sends, foldl_processPayment_sends]
  simp

/-! ### Claim theorems -/

/-- C1: for every payment whose due-date day offset `o` satisfies
`0 ≤ o ≤ 5`, the due-reminder decision is true — the due notification is
dispatched — regardless of any prior notification history for the
`(card, "due")` pair. -/
theorem due_near_zone_always_fires (now : JSDate) (lastLog : LastLogFn)
    (p : Payment) (h0 : 0 ≤ getDaysDifference now p.due_date)
    (h5 : getDaysDifference now p.due_date ≤ 5) :
    evalPayment now lastLog p = some NotificationType.due := by
  simp only [evalPayment]
  split_ifs with h1 h2 h3
  · rfl
  · rfl
  · exfalso
    apply h3
    simp only [shouldSendDue]
    rw [if_pos h5]
  · omega
  · omega

theorem due_near_zone_always_fires_witness :
    (0 : Int) ≤ getDaysDifference sampleNow (samplePayment ⟨2026, 9, 14, 0⟩).due_date ∧
    getDaysDifference sampleNow (samplePayment ⟨2026, 9, 14, 0⟩).due_date ≤ 5 ∧
    evalPayment sampleNow (historyAt sampleNow) (samplePayment ⟨2026, 9, 14, 0⟩) =
      some NotificationType.due :=
  ⟨by decide, by decide,
    due_near_zone_always_fires sampleNow (historyAt sampleNow)
      (samplePayment ⟨2026, 9, 14, 0⟩) (by decide) (by decide)⟩

/-- C2: for every payment whose due-date day offset exceeds 5, the due
reminder fires when no prior `"due"` log exists; when the most recent prior
`"due"` log was sent `k` civil days before now, it fires iff `k ≥ 3`. -/
theorem due_far_zone_cadence (now : JSDate) (lastLog : LastLogFn)
    (p : Payment) (hdiff : 5 < getDaysDifference now p.due_date) :
    (lastLog p.cards.id NotificationType.due = none →
      evalPayment now lastLog p = some NotificationType.due) ∧
    (∀ sentAt k, lastLog p.cards.id NotificationType.due = some sentAt →
      getDaysDifference sentAt now = k →
      (evalPayment now lastLog p = some NotificationType.due ↔ 3 ≤ k)) := by
  have h1 : ¬ (getDaysDifference now p.due_date = 0) := by omega
  have h2 : 0 < getDaysDifference now p.due_date := by omega
  have h5 : ¬ (getDaysDifference now p.due_date ≤ 5) := by omega
  constructor
  · intro hnone
    simp only [evalPayment, shouldSendDue, hnone, if_neg h1, if_pos h2,
      if_neg h5, if_true]
  · intro sentAt k hsome hk
    simp only [evalPayment, shouldSendDue, hsome, if_neg h1, if_pos h2, if_neg h5]
    subst hk
    by_cases h : 3 ≤ getDaysDifference sentAt now
    · simp [h]
    · simp [h]

theorem due_far_zone_cadence_witness :
    5 < getDaysDifference sampleNow (samplePayment ⟨2026, 9, 25, 0⟩).due_date ∧
    (evalPayment sampleNow (historyAt ⟨2026, 9, 9, 0⟩)
        (samplePayment ⟨2026, 9, 25, 0⟩) = some NotificationType.due ↔ (3 : Int) ≤ 2) :=
  ⟨by decide,
    (due_far_zone_cadence sampleNow (historyAt ⟨2026, 9, 9, 0⟩)
        (samplePayment ⟨2026, 9, 25, 0⟩) (by decide)).2
      ⟨2026, 9, 9, 0⟩ 2 rfl (by decide)⟩

/-- C3: for every payment in a run, the due and overdue branches are
selected by the sign of the day offset — an offset of zero is routed to the
due branch — and the run's dispatch trace gives each payment at most one
event (`(evalPayment ...).map`, an `Option`), so no payment ever yields both
a due and an overdue notification in one run. -/
theorem due_overdue_mutually_exclusive (app : Bool) (fmt : FormatCurrency)
    (userId : String) (now : JSDate) (setting : Setting)
    (tokens : List String) (payments : List Payment) (cards : List Card)
    (lastLog : LastLogFn) (gateway : GatewayFn)
    (logs : List NotificationLog) (failedTokens : List String)
    (htok : tokens ≠ []) :
    (processUserNotifications app fmt userId now (some setting) tokens payments
        cards lastLog gateway logs failedTokens).sends =
      payments.filterMap (paymentEventOf now lastLog) ++
        cards.filterMap (billingEventOf now payments lastLog) ∧
    ∀ p : Payment,
      (getDaysDifference now p.due_date = 0 →
        evalPayment now lastLog p = some NotificationType.due) ∧
      (0 ≤ getDaysDifference now p.due_date →
        evalPayment now lastLog p ≠ some NotificationType.overdue) ∧
      (getDaysDifference now p.due_date < 0 →
        evalPayment now lastLog p ≠ some NotificationType.due) := by
  refine ⟨run_sends_characterization app fmt userId now setting tokens payments
    cards lastLog gateway logs failedTokens htok, ?_⟩
  intro p
  refine ⟨?_, ?_, ?_⟩
  · intro h0
    simp only [evalPayment, if_pos h0]
  · intro hpos
    simp only [evalPayment]
    split_ifs <;> first | (exfalso; omega) | simp
  · intro hneg
    have h1 : ¬ (getDaysDifference now p.due_date = 0) := by omega
    have h2 : ¬ (0 < getDaysDifference now p.due_date) := by omega
    simp only [evalPayment, if_neg h1, if_neg h2]
    split_ifs <;> simp

theorem due_overdue_mutually_exclusive_witness :
    (["tok-1"] : List String) ≠ [] ∧
    (processUserNotifications true constFmt "user-1" sampleNow
        (some ⟨"English", "INR", 30⟩) ["tok-1"]
        [samplePayment ⟨2026, 9, 11, 0⟩] [sampleCard] noHistory silentGateway
        [] []).sends =
      [samplePayment ⟨2026, 9, 11, 0⟩].filterMap (paymentEventOf sampleNow noHistory) ++
        [sampleCard].filterMap
          (billingEventOf sampleNow [samplePayment ⟨2026, 9, 11, 0⟩] noHistory) :=
  ⟨by decide,
    (due_overdue_mutually_exclusive true constFmt "user-1" sampleNow
        ⟨"English", "INR", 30⟩ ["tok-1"] [samplePayment ⟨2026, 9, 11, 0⟩]
        [sampleCard] noHistory silentGateway [] [] (by decide)).1⟩

/-- C4: the run's billing loop contributes no event for a card that has an
unpaid payment in the run's payment set, and a card without one goes through
the ordinary billing decision; the run's dispatch trace is exactly the
per-payment events followed by the per-card billing events. -/
theorem billing_suppressed_by_unpaid_payment (app : Bool)
    (fmt : FormatCurrency) (userId : String) (now : JSDate) (setting : Setting)
    (tokens : List String) (payments : List Payment) (cards : List Card)
    (lastLog : LastLogFn) (gateway : GatewayFn)
    (logs : List NotificationLog) (failedTokens : List String)
    (htok : tokens ≠ []) :
    (processUserNotifications app fmt userId now (some setting) tokens payments
        cards lastLog gateway logs failedTokens).sends =
      payments.filterMap (paymentEventOf now lastLog) ++
        cards.filterMap (billingEventOf now payments lastLog) ∧
    ∀ card : Card,
      (hasUnpaidPayment payments card = true →
        billingEventOf now payments lastLog card = none) ∧
      (hasUnpaidPayment payments card = false →
        billingEventOf now payments lastLog card =
          (if shouldSendBilling now (lastLog card.id NotificationType.billing)
              (getDaysDifference now card.billing_date) then
            some ⟨card.id, NotificationType.billing⟩
          else none)) := by
  refine ⟨run_sends_characterization app fmt userId now setting tokens payments
    cards lastLog gateway logs failedTokens htok, ?_⟩
  intro card
  constructor
  · intro h
    simp [billingEventOf, h]
  · intro h
    simp [billingEventOf, h]

theorem billing_suppressed_by_unpaid_payment_witness :
    (["tok-1"] : List String) ≠ [] ∧
    hasUnpaidPayment [samplePayment ⟨2026, 9, 14, 0⟩] sampleCard = true ∧
    billingEventOf sampleNow [samplePayment ⟨2026, 9, 14, 0⟩] noHistory
      sampleCard = none :=
  ⟨by decide, by decide,
    ((billing_suppressed_by_unpaid_payment true constFmt "user-1" sampleNow
        ⟨"English", "INR", 30⟩ ["tok-1"] [samplePayment ⟨2026, 9, 14, 0⟩]
        [sampleCard] noHistory silentGateway [] [] (by decide)).2
      sampleCard).1 (by decide)⟩

/-- C5: for every payment with a negative day offset, the overdue reminder
always fires while the magnitude of the offset is at most 7; beyond 7 it
fires iff there is no prior `"overdue"` log or the most recent one is at
least 3 civil days old. -/
theorem overdue_cadence (now : JSDate) (lastLog : LastLogFn) (p : Payment)
    (hneg : getDaysDifference now p.due_date < 0) :
    (|getDaysDifference now p.due_date| ≤ 7 →
      evalPayment now lastLog p = some NotificationType.overdue) ∧
    (7 < |getDaysDifference now p.due_date| →
      (lastLog p.cards.id NotificationType.overdue = none →
        evalPayment now lastLog p = some NotificationType.overdue) ∧
      (∀ sentAt k, lastLog p.cards.id NotificationType.overdue = some sentAt →
        getDaysDifference sentAt now = k →
        (evalPayment now lastLog p = some NotificationType.overdue ↔ 3 ≤ k))) := by
  have h1 : ¬ (getDaysDifference now p.due_date = 0) := by omega
  have h2 : ¬ (0 < getDaysDifference now p.due_date) := by omega
  constructor
  · intro h7
    simp only [evalPayment, shouldSendOverdue, if_neg h1, if_neg h2,
      if_pos h7, if_true]
  · intro h7
    have h7n : ¬ (|getDaysDifference now p.due_date| ≤ 7) := by omega
    constructor
    · intro hnone
      simp only [evalPayment, shouldSendOverdue, hnone, if_neg h1, if_neg h2,
        if_neg h7n, if_true]
    · intro sentAt k hsome hk
      simp only [evalPayment, shouldSendOverdue, hsome, if_neg h1, if_neg h2,
        if_neg h7n]
      subst hk
      by_cases h : 3 ≤ getDaysDifference sentAt now
      · simp [h]
      · simp [h]

theorem overdue_cadence_witness :
    getDaysDifference sampleNow (samplePayment ⟨2026, 9, 1, 0⟩).due_date < 0 ∧
    (7 : Int) < |getDaysDifference sampleNow (samplePayment ⟨2026, 9, 1, 0⟩).due_date| ∧
    (evalPayment sampleNow (historyAt ⟨2026, 9, 9, 0⟩)
        (samplePayment ⟨2026, 9, 1, 0⟩) = some NotificationType.overdue ↔ (3 : Int) ≤ 2) :=
  ⟨by decide, by decide,
    ((overdue_cadence sampleNow (historyAt ⟨2026, 9, 9, 0⟩)
        (samplePayment ⟨2026, 9, 1, 0⟩) (by decide)).2 (by decide)).2
      ⟨2026, 9, 9, 0⟩ 2 rfl (by decide)⟩

/-- C6: a dispatch over `N` tokens whose `N` gateway responses contain `M`
successes and `F` permanent failures appends exactly `M` copies of the
history record to the log accumulator and exactly the `F` permanently
failed tokens to the cleanup accumulator, with `M + F ≤ N`; the recording
step for a transient failure changes neither accumulator. -/
theorem dispatch_accounting (app : Bool) (userId cardId : String)
    (ntype : NotificationType) (title body payload : String)
    (tokens : List String) (responses : List SendResponse) (sentAt : JSDate)
    (logs : List NotificationLog) (failedTokens : List String)
    (happ : app = true) (hlen : responses.length = tokens.length) :
    (sendNotification app userId cardId ntype title body payload tokens
        responses sentAt logs failedTokens).1 =
      logs ++ List.replicate (responses.countP (fun r => r.success))
        (mkLogEntry userId cardId ntype title body payload sentAt) ∧
    (sendNotification app userId cardId ntype title body payload tokens
        responses sentAt logs failedTokens).2 =
      failedTokens ++ permanentFailureTokens tokens responses ∧
    (permanentFailureTokens tokens responses).length =
      responses.countP isPermanentFailure ∧
    responses.countP (fun r => r.success) +
      responses.countP isPermanentFailure ≤ tokens.length ∧
    (∀ st i r, r.success = false →
      (∀ c, r.error = some c → isStaleTokenError c = false) →
      recordStep (mkLogEntry userId cardId ntype title body payload sentAt)
        tokens st i r = st) := by
  subst happ
  have hspec := recordResponses_spec
    (mkLogEntry userId cardId ntype title body payload sentAt) tokens
    responses 0 (logs, failedTokens) (by omega)
  have hcount := countP_success_add_perm_le responses
  refine ⟨?_, ?_, permanentFailureTokens_length tokens responses hlen.symm,
    by omega, ?_⟩
  · cases htok : tokens with
    | nil =>
        subst htok
        have : responses = [] := List.eq_nil_of_length_eq_zero (by simpa using hlen)
        subst this
        simp [sendNotification]
    | cons t ts =>
        subst htok
        simp only [sendNotification, Bool.not_true, Bool.false_or,
          List.isEmpty_cons, if_false]
        rw [hspec]
        simp
  · cases htok : tokens with
    | nil =>
        subst htok
        have : responses = [] := List.eq_nil_of_length_eq_zero (by simpa using hlen)
        subst this
        simp [sendNotification, permanentFailureTokens]
    | cons t ts =>
        subst htok
        simp only [sendNotification, Bool.not_true, Bool.false_or,
          List.isEmpty_cons, if_false]
        rw [hspec]
        simp
  · intro st i r hs he
    simp only [recordStep, hs]
    cases hr : r.error with
    | none => simp
    | some c =>
        have := he c hr
        simp [this]

theorem dispatch_accounting_witness :
    ([⟨true, none⟩, ⟨false, some "messaging/not-found"⟩,
        ⟨false, some "messaging/internal-error"⟩] : List SendResponse).length =
      (["t1", "t2", "t3"] : List String).length ∧
    (sendNotification true "user-1" "card-1" NotificationType.due "T" "B" "/p"
        ["t1", "t2", "t3"]
        [⟨true, none⟩, ⟨false, some "messaging/not-found"⟩,
          ⟨false, some "messaging/internal-error"⟩] sampleNow [] []).1 =
      [] ++ List.replicate
        (([⟨true, none⟩, ⟨false, some "messaging/not-found"⟩,
            ⟨false, some "messaging/internal-error"⟩] : List SendResponse).countP
          (fun r => r.success))
        (mkLogEntry "user-1" "card-1" NotificationType.due "T" "B" "/p" sampleNow) ∧
    (sendNotification true "user-1" "card-1" NotificationType.due "T" "B" "/p"
        ["t1", "t2", "t3"]
        [⟨true, none⟩, ⟨false, some "messaging/not-found"⟩,
          ⟨false, some "messaging/internal-error"⟩] sampleNow [] []).2 =
      [] ++ permanentFailureTokens ["t1", "t2", "t3"]
        [⟨true, none⟩, ⟨false, some "messaging/not-found"⟩,
          ⟨false, some "messaging/internal-error"⟩] :=
  ⟨by decide,
    (dispatch_accounting true "user-1" "card-1" NotificationType.due "T" "B"
        "/p" ["t1", "t2", "t3"]
        [⟨true, none⟩, ⟨false, some "messaging/not-found"⟩,
          ⟨false, some "messaging/internal-error"⟩] sampleNow [] [] rfl
        (by decide)).1,
    (dispatch_accounting true "user-1" "card-1" NotificationType.due "T" "B"
        "/p" ["t1", "t2", "t3"]
        [⟨true, none⟩, ⟨false, some "messaging/not-found"⟩,
          ⟨false, some "messaging/internal-error"⟩] sampleNow [] [] rfl
        (by decide)).2.1⟩

/-- C7: the day-difference function reads only the civil calendar dates of
its two arguments — changing either time of day while keeping the dates
leaves the result unchanged — and it equals the signed count of calendar
days from the first date to the second. -/
theorem day_difference_civil_only (t1 t2 s1 s2 : JSDate)
    (h1 : t1.year = s1.year ∧ t1.month = s1.month ∧ t1.day = s1.day)
    (h2 : t2.year = s2.year ∧ t2.month = s2.month ∧ t2.day = s2.day) :
    getDaysDifference t1 t2 = getDaysDifference s1 s2 ∧
    getDaysDifference t1 t2 = civilDayNumber t2 - civilDayNumber t1 := by
  obtain ⟨hy1, hm1, hd1⟩ := h1
  obtain ⟨hy2, hm2, hd2⟩ := h2
  constructor
  · unfold getDaysDifference dateUTC
    rw [hy1, hm1, hd1, hy2, hm2, hd2]
  · exact getDaysDifference_eq_civil_sub t1 t2

theorem day_difference_civil_only_witness :
    ((⟨2026, 9, 11, 0⟩ : JSDate).year = (⟨2026, 9, 11, 86399999⟩ : JSDate).year ∧
      (⟨2026, 9, 11, 0⟩ : JSDate).month = (⟨2026, 9, 11, 86399999⟩ : JSDate).month ∧
      (⟨2026, 9, 11, 0⟩ : JSDate).day = (⟨2026, 9, 11, 86399999⟩ : JSDate).day) ∧
    ((⟨2026, 9, 14, 120⟩ : JSDate).year = (⟨2026, 9, 14, 5⟩ : JSDate).year ∧
      (⟨2026, 9, 14, 120⟩ : JSDate).month = (⟨2026, 9, 14, 5⟩ : JSDate).month ∧
      (⟨2026, 9, 14, 120⟩ : JSDate).day = (⟨2026, 9, 14, 5⟩ : JSDate).day) ∧
    getDaysDifference ⟨2026, 9, 11, 0⟩ ⟨2026, 9, 14, 120⟩ =
      getDaysDifference ⟨2026, 9, 11, 86399999⟩ ⟨2026, 9, 14, 5⟩ :=
  ⟨by decide, by decide,
    (day_difference_civil_only ⟨2026, 9, 11, 0⟩ ⟨2026, 9, 14, 120⟩
        ⟨2026, 9, 11, 86399999⟩ ⟨2026, 9, 14, 5⟩ (by decide) (by decide)).1⟩

/-- C8: the message composer is total — for every currency formatter, every
language string (unknown or differently-cased values fall back to the
English template set), every notification kind and all card/amount
arguments, the composed title and body are non-empty. -/
theorem composer_total (fmt : FormatCurrency)
    (lang cardName last4 currencyCode : String) (n amt paid : Int) (ad : Bool) :
    ((mkBuilder fmt lang).billingReminder cardName last4 n).title ≠ "" ∧
    ((mkBuilder fmt lang).billingReminder cardName last4 n).body ≠ "" ∧
    ((mkBuilder fmt lang).dueReminder cardName last4 n amt currencyCode ad).title ≠ "" ∧
    ((mkBuilder fmt lang).dueReminder cardName last4 n amt currencyCode ad).body ≠ "" ∧
    ((mkBuilder fmt lang).overdue cardName last4 amt currencyCode ad).title ≠ "" ∧
    ((mkBuilder fmt lang).overdue cardName last4 amt currencyCode ad).body ≠ "" ∧
    ((mkBuilder fmt lang).partialPayment cardName last4 paid amt currencyCode ad).title ≠ "" ∧
    ((mkBuilder fmt lang).partialPayment cardName last4 paid amt currencyCode ad).body ≠ "" := by
  unfold mkBuilder NotificationMessageBuilder.billingReminder
    NotificationMessageBuilder.dueReminder NotificationMessageBuilder.overdue
    NotificationMessageBuilder.partialPayment
  split
  all_goals
    simp only [en, hi]
    refine ⟨?_, ?_, ?_, ?_, ?_, ?_, ?_, ?_⟩
  all_goals
    repeat' split
  all_goals solve
    | (repeat first | decide | apply append_left_ne_empty)
    | (repeat first | decide | apply append_right_ne_empty)

/-- C9: a user with no setting row or no registered device token is skipped
without any dispatch: the run-scoped accumulators come back exactly as they
went in and the dispatch trace is empty. -/
theorem skip_user_without_tokens_or_setting (app : Bool)
    (fmt : FormatCurrency) (userId : String) (now : JSDate)
    (userSetting : Option Setting) (tokens : List String)
    (payments : List Payment) (cards : List Card) (lastLog : LastLogFn)
    (gateway : GatewayFn) (logs : List NotificationLog)
    (failedTokens : List String)
    (h : userSetting = none ∨ tokens = []) :
    processUserNotifications app fmt userId now userSetting tokens payments
      cards lastLog gateway logs failedTokens =
      ⟨logs, failedTokens, []⟩ := by
  rcases h with h | h
  · subst h
    rfl
  · subst h
    cases userSetting with
    | none => rfl
    | some setting => rfl

theorem skip_user_without_tokens_or_setting_witness :
    ((some (⟨"English", "INR", 30⟩ : Setting) = none) ∨ ([] : List String) = []) ∧
    processUserNotifications true constFmt "user-1" sampleNow
        (some ⟨"English", "INR", 30⟩) [] [samplePayment ⟨2026, 9, 11, 0⟩]
        [sampleCard] noHistory silentGateway [] [] =
      ⟨[], [], []⟩ :=
  ⟨Or.inr rfl,
    skip_user_without_tokens_or_setting true constFmt "user-1" sampleNow
      (some ⟨"English", "INR", 30⟩) [] [samplePayment ⟨2026, 9, 11, 0⟩]
      [sampleCard] noHistory silentGateway [] [] (Or.inr rfl)⟩

/-- C10: when the gateway honours its contract (one response per token),
every token in the cleanup accumulator after a dispatch either was already
there or is an element of the token list passed into that dispatch. -/
theorem failed_tokens_come_from_input (app : Bool) (userId cardId : String)
    (ntype : NotificationType) (title body payload : String)
    (tokens : List String) (responses : List SendResponse) (sentAt : JSDate)
    (logs : List NotificationLog) (failedTokens : List String)
    (hlen : responses.length = tokens.length) :
    ∀ t ∈ (sendNotification app userId cardId ntype title body payload tokens
        responses sentAt logs failedTokens).2,
      t ∈ failedTokens ∨ t ∈ tokens := by
  intro t ht
  by_cases happ : app
  · cases htok : tokens with
    | nil =>
        subst htok
        simp [sendNotification] at ht
        exact Or.inl ht
    | cons tk ts =>
        rw [htok] at hlen
        have hspec := recordResponses_spec
          (mkLogEntry userId cardId ntype title body payload sentAt)
          (tk :: ts) responses 0 (logs, failedTokens) (by omega)
        subst htok
        rw [happ] at ht
        simp only [sendNotification, Bool.not_true, Bool.false_or,
          List.isEmpty_cons, if_false] at ht
        rw [hspec] at ht
        simp only [List.drop_zero] at ht
        rcases List.mem_append.mp ht with hmem | hmem
        · exact Or.inl hmem
        · right
          simp only [permanentFailureTokens, List.mem_filterMap] at hmem
          obtain ⟨tr, htr, heq⟩ := hmem
          have hz := List.of_mem_zip htr
          by_cases hp : isPermanentFailure tr.2
          · rw [if_pos hp] at heq
            cases heq
            exact hz.1
          · rw [if_neg hp] at heq
            cases heq
  · have : app = false := by simpa using happ
    subst this
    simp [sendNotification] at ht
    exact Or.inl ht

theorem failed_tokens_come_from_input_witness :
    ([⟨true, none⟩, ⟨false, some "messaging/not-found"⟩] : List SendResponse).length =
      (["t1", "t2"] : List String).length ∧
    ("t2" ∈ ([] : List String) ∨ "t2" ∈ (["t1", "t2"] : List String)) :=
  ⟨by decide,
    failed_tokens_come_from_input true "user-1" "card-1" NotificationType.due
      "T" "B" "/p" ["t1", "t2"]
      [⟨true, none⟩, ⟨false, some "messaging/not-found"⟩] sampleNow [] []
      (by decide) "t2" (by decide)⟩

end CardNudge

